import Mathlib

/-!
Verification of the Khael Apartments backend (Express + better-sqlite3).

This file gives a shallow embedding of the backend's request handlers:

* `src/controllers/apartmentController.js` — `getAllApartments`,
  `getApartmentById`, `createApartment`, `updateApartment`, `deleteApartment`;
* `src/routes/apartments.js` — the image-upload route `POST /:id/images` and
  the primary-flag route `PUT /:apartmentId/images/:imageId/primary`;
* `src/controllers/authController.js` — `login`;
* `src/middleware/auth.js` — `authenticateAdmin`.

The SQLite tables declared in `src/database/init.js` are embedded as lists of
rows held in a `Store` structure; `ON DELETE CASCADE` on `apartment_images`
and `apartment_videos` is reflected in the embedding of the `DELETE` issued by
`deleteApartment`.  JavaScript request-body values are embedded as `JsValue`
(numbers as integers); the JSON string round trip used for the `amenities`
column (`JSON.stringify` on write, `JSON.parse` on read) is embedded as the
parsed list itself, stored as `Option (List JsValue)` — `NULL` when the code
writes SQL `NULL`, `some xs` when it writes `JSON.stringify xs` (a nonempty,
hence truthy, string).  External effects (`bcrypt.compare`, `jwt.sign`,
`jwt.verify`, `fs.unlink`) are parameters of the corresponding handlers.
-/

/-- A JavaScript value as it can appear in a JSON request body or after
destructuring (`undefined` for an absent key). Numbers are embedded as
integers. -/
inductive JsValue
  | vUndefined
  | vNull
  | vBool (b : Bool)
  | vNum (n : Int)
  | vStr (s : String)
  | vArr (elems : List JsValue)

/-- JavaScript truthiness, as used by `!x` and `x ? a : b` in the handlers:
`undefined`, `null`, `false`, `0` and the empty string are falsy; arrays are
always truthy. -/
def truthy : JsValue → Bool
  | .vUndefined => false
  | .vNull => false
  | .vBool b => b
  | .vNum n => n != 0
  | .vStr s => s != ""
  | .vArr _ => true

/-- A request body: a JavaScript object, keys in insertion order. -/
def ReqBody := List (String × JsValue)

/-- Property access `body.k`: the value stored at key `k`, `undefined` when
the key is absent. -/
def getField (body : ReqBody) (k : String) : JsValue :=
  match body.find? (fun p => p.1 == k) with
  | some p => p.2
  | none => .vUndefined

/-- Destructuring default `const { x = d } = body`: the default applies
exactly when the stored value is `undefined`. -/
def orDefault (v dflt : JsValue) : JsValue :=
  match v with
  | .vUndefined => dflt
  | x => x

/-- A row of the `apartments` table. Scalar request values are stored as
given (SQLite is dynamically typed); `available`/`featured` are stored as the
integers the handlers write (`x ? 1 : 0`); `amenities` holds the parsed
content of the JSON string column (`none` embeds SQL `NULL`); timestamps are
ticks of the store clock. -/
structure ApartmentRow where
  id : Nat
  title : JsValue
  description : JsValue
  bedrooms : JsValue
  bathrooms : JsValue
  max_guests : JsValue
  price_per_night : JsValue
  address : JsValue
  city : JsValue
  state : JsValue
  available : Nat
  featured : Nat
  amenities : Option (List JsValue)
  created_at : Nat
  updated_at : Nat

/-- A row of the `apartment_images` table (`is_primary` defaults to 0,
`display_order` defaults to 0). -/
structure ImageRow where
  id : Nat
  apartment_id : Nat
  image_url : String
  is_primary : Bool
  display_order : Int

/-- A row of the `apartment_videos` table. -/
structure VideoRow where
  id : Nat
  apartment_id : Nat
  video_url : String

/-- A row of the `admin_users` table; `password` is the stored bcrypt hash. -/
structure AdminUser where
  id : Nat
  username : String
  password : String

/-- The SQLite database: the three apartment tables, the AUTOINCREMENT
counters for `apartments.id` and `apartment_images.id`, and a logical clock
supplying `CURRENT_TIMESTAMP`. -/
structure Store where
  apartments : List ApartmentRow
  images : List ImageRow
  videos : List VideoRow
  nextAptId : Nat
  nextImgId : Nat
  clock : Nat

/-- The freshly initialised database (AUTOINCREMENT ids start at 1). -/
def emptyStore : Store :=
  { apartments := [], images := [], videos := [], nextAptId := 1, nextImgId := 1, clock := 0 }

/-- The API-facing shape of an apartment row:
`{...apt, available: Boolean(apt.available), featured: Boolean(apt.featured),
amenities: apt.amenities ? JSON.parse(apt.amenities) : []}`.  The stored JSON
string is truthy exactly when the column is not `NULL` (a `JSON.stringify`
result is a nonempty string), so the amenities readback is `getD []`. -/
structure ApartmentView where
  id : Nat
  title : JsValue
  description : JsValue
  bedrooms : JsValue
  bathrooms : JsValue
  max_guests : JsValue
  price_per_night : JsValue
  address : JsValue
  city : JsValue
  state : JsValue
  available : Bool
  featured : Bool
  amenities : List JsValue
  created_at : Nat
  updated_at : Nat

/-- Conversion of a stored row to its API-facing shape. -/
def rowView (a : ApartmentRow) : ApartmentView :=
  { id := a.id, title := a.title, description := a.description, bedrooms := a.bedrooms,
    bathrooms := a.bathrooms, max_guests := a.max_guests,
    price_per_night := a.price_per_night, address := a.address, city := a.city,
    state := a.state, available := a.available != 0, featured := a.featured != 0,
    amenities := a.amenities.getD [], created_at := a.created_at, updated_at := a.updated_at }

/-- An apartment as returned by list/get/create: the shaped row plus its
`images` and `videos` arrays. -/
structure ApartmentOut where
  view : ApartmentView
  images : List ImageRow
  videos : List VideoRow

/-- The `ORDER BY is_primary DESC, display_order ASC` comparison of the image
queries (with `is_primary` stored as 0/1, descending on it puts primary
images first). -/
def imgRank (r : ImageRow) : Nat := if r.is_primary then 0 else 1

/-- Total preorder realising `ORDER BY is_primary DESC, display_order ASC`. -/
def imgLE (a b : ImageRow) : Prop :=
  imgRank a < imgRank b ∨ (imgRank a = imgRank b ∧ a.display_order ≤ b.display_order)

instance : DecidableRel imgLE := fun a b =>
  inferInstanceAs (Decidable (imgRank a < imgRank b ∨
    (imgRank a = imgRank b ∧ a.display_order ≤ b.display_order)))

instance : IsTotal ImageRow imgLE where
  total a b := by
    rcases Nat.lt_trichotomy (imgRank a) (imgRank b) with h | h | h
    · exact Or.inl (Or.inl h)
    · rcases le_total a.display_order b.display_order with h2 | h2
      · exact Or.inl (Or.inr ⟨h, h2⟩)
      · exact Or.inr (Or.inr ⟨h.symm, h2⟩)
    · exact Or.inr (Or.inl h)

instance : IsTrans ImageRow imgLE where
  trans a b c hab hbc := by
    rcases hab with h1 | ⟨h1, h1'⟩
    · rcases hbc with h2 | ⟨h2, _⟩
      · exact Or.inl (h1.trans h2)
      · exact Or.inl (h2 ▸ h1)
    · rcases hbc with h2 | ⟨h2, h2'⟩
      · exact Or.inl (h1 ▸ h2)
      · exact Or.inr ⟨h1.trans h2, h1'.trans h2'⟩

/-- The image query shared by `getAllApartments` and `getApartmentById`:
`SELECT * FROM apartment_images WHERE apartment_id = ? ORDER BY is_primary
DESC, display_order ASC`. -/
def imagesFor (st : Store) (aptId : Nat) : List ImageRow :=
  List.insertionSort imgLE (st.images.filter (fun r => r.apartment_id == aptId))

/-- The video query shared by `getAllApartments` and `getApartmentById`:
`SELECT * FROM apartment_videos WHERE apartment_id = ?`. -/
def videosFor (st : Store) (aptId : Nat) : List VideoRow :=
  st.videos.filter (fun r => r.apartment_id == aptId)

/-- Shaping of one row for list/get responses: the row plus its media. -/
def rowOut (st : Store) (a : ApartmentRow) : ApartmentOut :=
  { view := rowView a, images := imagesFor st a.id, videos := videosFor st a.id }

/-- The admin check of the public list endpoint:
`req.headers.authorization && req.headers.authorization.startsWith('Bearer')`
(header presence and prefix only — the token is not verified). -/
def bearerPresent (auth : Option String) : Bool :=
  match auth with
  | none => false
  | some s => s != "" && s.startsWith "Bearer"

/-- Comparison of `ORDER BY created_at DESC`. -/
def createdDesc (a b : ApartmentRow) : Prop := b.created_at ≤ a.created_at

instance : DecidableRel createdDesc := fun a b =>
  inferInstanceAs (Decidable (b.created_at ≤ a.created_at))

/-- Response of `GET /api/apartments`. -/
structure ListResp where
  success : Bool
  count : Nat
  apartments : List ApartmentOut

/-- GET ALL APARTMENTS (`getAllApartments`): admin requests (bearer header
present) read `SELECT * FROM apartments ORDER BY created_at DESC`, public
requests add `WHERE available = 1`; each row is shaped with its media. -/
def getAllApartments (auth : Option String) (st : Store) : ListResp :=
  let isAdmin := bearerPresent auth
  let rows := if isAdmin then st.apartments
              else st.apartments.filter (fun a => a.available == 1)
  let sorted := List.insertionSort createdDesc rows
  let outs := sorted.map (rowOut st)
  { success := true, count := outs.length, apartments := outs }

/-- Response of `GET /api/apartments/:id` (the `notFound` constructor carries
HTTP status 404, `ok` status 200). -/
inductive GetResp
  | notFound (error message : String)
  | ok (apartment : ApartmentOut)

/-- GET SINGLE APARTMENT BY ID (`getApartmentById`). -/
def getApartmentById (st : Store) (id : Nat) : GetResp :=
  match st.apartments.find? (fun a => a.id == id) with
  | none => .notFound "Apartment not found" ("No apartment found with ID: " ++ toString id)
  | some apt => .ok (rowOut st apt)

/-- Response of `POST /api/apartments` (`badRequest` carries HTTP 400,
`created` HTTP 201; a created apartment is returned with literal `images: []`
and `videos: []`). -/
inductive CreateResp
  | badRequest (error message : String)
  | created (message : String) (apartment : ApartmentOut)

/-- CREATE NEW APARTMENT (`createApartment`): destructures the body with
defaults `available = true`, `featured = false`, `amenities = []`, rejects
with 400 when any required field is falsy, otherwise inserts a row and
returns it re-read from the store. -/
def createApartment (st : Store) (body : ReqBody) : CreateResp × Store :=
  let title := getField body "title"
  let description := getField body "description"
  let bedrooms := getField body "bedrooms"
  let bathrooms := getField body "bathrooms"
  let max_guests := getField body "max_guests"
  let price_per_night := getField body "price_per_night"
  let address := getField body "address"
  let city := getField body "city"
  let state := getField body "state"
  let available := orDefault (getField body "available") (.vBool true)
  let featured := orDefault (getField body "featured") (.vBool false)
  let amenities := orDefault (getField body "amenities") (.vArr [])
  if !truthy title || !truthy bedrooms || !truthy bathrooms || !truthy max_guests
      || !truthy price_per_night || !truthy address || !truthy city || !truthy state then
    (.badRequest "Missing required fields"
      "Title, bedrooms, bathrooms, max_guests, price_per_night, address, city, and state are required",
     st)
  else
    let amenitiesJson : Option (List JsValue) :=
      match amenities with
      | .vArr xs => some xs
      | _ => none
    let row : ApartmentRow :=
      { id := st.nextAptId, title := title, description := description, bedrooms := bedrooms,
        bathrooms := bathrooms, max_guests := max_guests, price_per_night := price_per_night,
        address := address, city := city, state := state,
        available := if truthy available then 1 else 0,
        featured := if truthy featured then 1 else 0,
        amenities := amenitiesJson, created_at := st.clock, updated_at := st.clock }
    let st' : Store :=
      { st with apartments := st.apartments ++ [row],
                nextAptId := st.nextAptId + 1, clock := st.clock + 1 }
    (.created "Apartment created successfully"
      { view := rowView row, images := [], videos := [] }, st')

/-- Response of `PUT /api/apartments/:id` (`notFound` 404, `badRequest` 400;
the update response carries no `images`/`videos` arrays). -/
inductive UpdateResp
  | notFound (error message : String)
  | badRequest (error message : String)
  | ok (message : String) (apartment : ApartmentView)

/-- The `allowedFields` array of `updateApartment`. -/
def allowedFields : List String :=
  ["title", "description", "bedrooms", "bathrooms", "max_guests",
   "price_per_night", "address", "city", "state", "available", "featured", "amenities"]

/-- One `key = ?` assignment of the dynamic `UPDATE`, with the handler's
special cases for `available`/`featured` (`x ? 1 : 0`) and `amenities`
(`Array.isArray(x) ? JSON.stringify(x) : null`). -/
def applyField (r : ApartmentRow) (kv : String × JsValue) : ApartmentRow :=
  match kv.1 with
  | "title" => { r with title := kv.2 }
  | "description" => { r with description := kv.2 }
  | "bedrooms" => { r with bedrooms := kv.2 }
  | "bathrooms" => { r with bathrooms := kv.2 }
  | "max_guests" => { r with max_guests := kv.2 }
  | "price_per_night" => { r with price_per_night := kv.2 }
  | "address" => { r with address := kv.2 }
  | "city" => { r with city := kv.2 }
  | "state" => { r with state := kv.2 }
  | "available" => { r with available := if truthy kv.2 then 1 else 0 }
  | "featured" => { r with featured := if truthy kv.2 then 1 else 0 }
  | "amenities" =>
    { r with amenities := match kv.2 with | .vArr xs => some xs | _ => none }
  | _ => r

/-- UPDATE APARTMENT (`updateApartment`): 404 when the id is absent, 400 when
the body contains no allow-listed key, otherwise applies exactly the
allow-listed assignments plus `updated_at = CURRENT_TIMESTAMP`. -/
def updateApartment (st : Store) (id : Nat) (body : ReqBody) : UpdateResp × Store :=
  match st.apartments.find? (fun a => a.id == id) with
  | none =>
    (.notFound "Apartment not found" ("No apartment found with ID: " ++ toString id), st)
  | some existing =>
    let updateFields := body.filter (fun kv => allowedFields.contains kv.1)
    if updateFields.isEmpty then
      (.badRequest "No valid fields to update" "Provide at least one valid field to update", st)
    else
      let updated : ApartmentRow :=
        { updateFields.foldl applyField existing with updated_at := st.clock }
      let st' : Store :=
        { st with
          apartments := st.apartments.map (fun a => if a.id == id then updated else a),
          clock := st.clock + 1 }
      (.ok "Apartment updated successfully" (rowView updated), st')

/-- Response of `DELETE /api/apartments/:id` (`notFound` 404, `ok` 200). -/
inductive DelResp
  | notFound (error message : String)
  | ok (message : String)

/-- Full outcome of a delete: the HTTP response, the store after the SQL
`DELETE` (with its foreign-key cascade), and the console log lines produced
by swallowed `fs.unlink` failures. -/
structure DelResult where
  resp : DelResp
  store : Store
  logs : List String

/-- DELETE APARTMENT (`deleteApartment`): 404 when the id is absent;
otherwise the apartment row is deleted and `ON DELETE CASCADE` removes its
image and video rows, then the media files are unlinked best-effort — a
failed unlink (given by the `unlinkOk` oracle) is only logged. -/
def deleteApartment (unlinkOk : String → Bool) (st : Store) (id : Nat) : DelResult :=
  match st.apartments.find? (fun a => a.id == id) with
  | none =>
    { resp := .notFound "Apartment not found" ("No apartment found with ID: " ++ toString id),
      store := st, logs := [] }
  | some _ =>
    let images := st.images.filter (fun r => r.apartment_id == id)
    let videos := st.videos.filter (fun r => r.apartment_id == id)
    let st' : Store :=
      { st with
        apartments := st.apartments.filter (fun a => !(a.id == id)),
        images := st.images.filter (fun r => !(r.apartment_id == id)),
        videos := st.videos.filter (fun r => !(r.apartment_id == id)) }
    let logs :=
      images.filterMap (fun img =>
        if unlinkOk img.image_url then none
        else some ("Could not delete " ++ img.image_url)) ++
      videos.filterMap (fun vid =>
        if unlinkOk vid.video_url then none
        else some ("Could not delete " ++ vid.video_url))
    { resp := .ok "Apartment deleted successfully", store := st', logs := logs }

/-- A file as delivered by multer/Cloudinary (`file.path` is the durable
URL). -/
structure UploadedFile where
  path : String
  filename : String
  size : Nat

/-- One element of the `images` array of a successful upload response. -/
structure UploadedImageInfo where
  url : String
  filename : String
  size : Nat

/-- Response of `POST /api/apartments/:id/images` (`notFound` 404,
`badRequest` 400, `ok` 200). -/
inductive UploadResp
  | notFound (error message : String)
  | badRequest (error message : String)
  | ok (message : String) (images : List UploadedImageInfo)

/-- SQL `MAX` over a list of integers: `NULL` (`none`) on the empty set. -/
def sqlMax : List Int → Option Int
  | [] => none
  | x :: xs =>
    match sqlMax xs with
    | none => some x
    | some m => some (max x m)

/-- The JavaScript expression `(maxOrder?.max_order || -1)`: `||` substitutes
`-1` both when `MAX` returned `NULL` and when it returned `0`, because `0` is
falsy. -/
def jsOrNegOne : Option Int → Int
  | none => -1
  | some v => if v == 0 then -1 else v

/-- `SELECT MAX(display_order) FROM apartment_images WHERE apartment_id = ?`. -/
def maxDisplayOrder (st : Store) (aptId : Nat) : Option Int :=
  sqlMax ((st.images.filter (fun r => r.apartment_id == aptId)).map (fun r => r.display_order))

/-- The insertion loop of the upload route: the `index`-th file receives id
`startId + index` and `display_order` `startOrder + index`; `is_primary`
takes its column default 0. -/
def mkImageRows (aptId startId : Nat) (startOrder : Int) : List UploadedFile → List ImageRow
  | [] => []
  | f :: fs =>
    { id := startId, apartment_id := aptId, image_url := f.path,
      is_primary := false, display_order := startOrder }
      :: mkImageRows aptId (startId + 1) (startOrder + 1) fs

/-- UPLOAD IMAGES (`POST /:id/images`): 404 when the apartment is absent, 400
when no files were uploaded; otherwise each file is inserted with
`display_order` starting at `(maxOrder?.max_order || -1) + 1`. -/
def uploadImages (st : Store) (aptId : Nat) (files : List UploadedFile) : UploadResp × Store :=
  match st.apartments.find? (fun a => a.id == aptId) with
  | none =>
    (.notFound "Apartment not found" ("No apartment found with ID: " ++ toString aptId), st)
  | some _ =>
    if files.isEmpty then
      (.badRequest "No files uploaded" "Please select at least one image to upload", st)
    else
      let currentOrder := jsOrNegOne (maxDisplayOrder st aptId) + 1
      let newRows := mkImageRows aptId st.nextImgId currentOrder files
      let st' : Store :=
        { st with images := st.images ++ newRows, nextImgId := st.nextImgId + files.length }
      (.ok (toString files.length ++ " image(s) uploaded successfully to Cloudinary")
        (files.map (fun f => { url := f.path, filename := f.filename, size := f.size })), st')

/-- Response of `PUT /:apartmentId/images/:imageId/primary` (`notFound` 404,
`ok` 200). -/
inductive PrimaryResp
  | notFound (error message : String)
  | ok (message : String)

/-- SET PRIMARY IMAGE (`PUT /:apartmentId/images/:imageId/primary`): 404 when
no image with this id belongs to this apartment; otherwise first
`UPDATE ... SET is_primary = 0 WHERE apartment_id = ?`, then
`UPDATE ... SET is_primary = 1 WHERE id = ?`. -/
def setPrimaryImage (st : Store) (aptId imgId : Nat) : PrimaryResp × Store :=
  match st.images.find? (fun r => r.id == imgId && r.apartment_id == aptId) with
  | none =>
    (.notFound "Image not found" "Image does not exist or does not belong to this apartment", st)
  | some _ =>
    let cleared := st.images.map (fun r =>
      if r.apartment_id == aptId then { r with is_primary := false } else r)
    let flagged := cleared.map (fun r =>
      if r.id == imgId then { r with is_primary := true } else r)
    (.ok "Primary image updated successfully", { st with images := flagged })

/-- Response of `POST /api/auth/login`: an error envelope with its HTTP
status, or the success payload. -/
inductive LoginResp
  | err (status : Nat) (error message : String)
  | ok (message token : String) (id : Nat) (username : String)

/-- ADMIN LOGIN (`login`): 400 on falsy username/password, a single 401 shape
for both an unknown username and a failed hash comparison, and a signed token
on success.  `compare` embeds `bcrypt.compare` (password against stored
hash), `sign` embeds `jwt.sign` on the `{id, username}` payload. -/
def login (compare : String → String → Bool) (sign : Nat → String → String)
    (admins : List AdminUser) (username password : String) : LoginResp :=
  if username == "" || password == "" then
    .err 400 "Missing credentials" "Username and password are required"
  else
    match admins.find? (fun a => a.username == username) with
    | none => .err 401 "Invalid credentials" "Username or password is incorrect"
    | some admin =>
      if compare password admin.password then
        .ok "Login successful" (sign admin.id admin.username) admin.id admin.username
      else
        .err 401 "Invalid credentials" "Username or password is incorrect"

/-- Outcome of `jwt.verify`: the decoded payload, or one of the error classes
the middleware distinguishes by `error.name`. -/
inductive VerifyResult
  | ok (id : Nat) (username : String)
  | jsonWebTokenError
  | tokenExpiredError
  | otherError (msg : String)

/-- Outcome of the middleware: an error response, or `next()` with
`req.admin = {id, username}` attached. -/
inductive AuthOutcome
  | respond (status : Nat) (error message : String)
  | proceed (id : Nat) (username : String)

/-- HTTP status of a middleware outcome (`none` when the request proceeds to
the protected handler). -/
def AuthOutcome.status : AuthOutcome → Option Nat
  | .respond s _ _ => some s
  | .proceed _ _ => none

/-- Splitting of a character list at every occurrence of `sep`, keeping empty
segments, as JavaScript `split` does on a one-character separator:
`"a  b" ↦ ["a", "", "b"]` and `"" ↦ [""]`. -/
def splitChars (sep : Char) : List Char → List (List Char)
  | [] => [[]]
  | c :: rest =>
    match splitChars sep rest with
    | [] => if c = sep then [[], []] else [[c]]
    | g :: gs => if c = sep then [] :: g :: gs else (c :: g) :: gs

/-- JavaScript `s.split(sep)` for a one-character separator. -/
def jsSplit (s : String) (sep : Char) : List String :=
  (splitChars sep s.data).map (fun cs => { data := cs })

/-- AUTHENTICATION MIDDLEWARE (`authenticateAdmin`): 401 when the header is
absent (falsy), when `header.split(' ')[1]` is missing or empty, and when
`jwt.verify` throws `JsonWebTokenError` or `TokenExpiredError`; 500 for any
other verification failure; otherwise the decoded identity is attached and
the request proceeds. -/
def authenticateAdmin (verify : String → VerifyResult) (authHeader : Option String) : AuthOutcome :=
  match authHeader with
  | none => .respond 401 "No authorization token provided" "Please login first"
  | some header =>
    if header == "" then
      .respond 401 "No authorization token provided" "Please login first"
    else
      match (jsSplit header ' ')[1]? with
      | none => .respond 401 "Invalid token format" "Token should be: Bearer <token>"
      | some token =>
        if token == "" then
          .respond 401 "Invalid token format" "Token should be: Bearer <token>"
        else
          match verify token with
          | .ok i u => .proceed i u
          | .jsonWebTokenError => .respond 401 "Invalid token" "Please login again"
          | .tokenExpiredError =>
            .respond 401 "Token expired" "Your session has expired. Please login again"
          | .otherError msg => .respond 500 "Authentication failed" msg

/-- The media operations of claim C2: an image upload and a set-primary, both
applied for their store effect. -/
inductive MediaOp
  | upload (aptId : Nat) (files : List UploadedFile)
  | setPrim (aptId imgId : Nat)

/-- Store effect of one media operation. -/
def applyMediaOp (st : Store) : MediaOp → Store
  | .upload aptId files => (uploadImages st aptId files).2
  | .setPrim aptId imgId => (setPrimaryImage st aptId imgId).2

/-- Store effect of a sequence of media operations. -/
def runMediaOps : Store → List MediaOp → Store
  | st, [] => st
  | st, op :: ops => runMediaOps (applyMediaOp st op) ops

/-- Structural well-formedness of the image table maintained by AUTOINCREMENT:
ids are below the counter and pairwise distinct. -/
def imgIdsOk (st : Store) : Prop :=
  (∀ r ∈ st.images, r.id < st.nextImgId) ∧ (st.images.map (fun r => r.id)).Nodup

/-- Number of images of apartment `aptId` flagged primary. -/
def primCount (imgs : List ImageRow) (aptId : Nat) : Nat :=
  imgs.countP (fun r => r.apartment_id == aptId && r.is_primary)

/-- The primary-image invariant: every apartment has at most one primary
image. -/
def atMostOnePrimary (st : Store) : Prop :=
  ∀ aptId, primCount st.images aptId ≤ 1

/-! ### Test fixtures -/

/-- A concrete stored row used by witnesses (availability, id and creation
tick are the varying parts). -/
def sampleApt (id avail created : Nat) : ApartmentRow :=
  { id := id, title := .vStr "Sample", description := .vNull, bedrooms := .vNum 2,
    bathrooms := .vNum 1, max_guests := .vNum 3, price_per_night := .vNum 20000,
    address := .vStr "12 Street", city := .vStr "Abuja", state := .vStr "FCT",
    available := avail, featured := 0, amenities := none,
    created_at := created, updated_at := created }

/-- A store with one available and one unavailable listing. -/
def stC1 : Store :=
  { apartments := [sampleApt 1 1 0, sampleApt 2 0 1], images := [], videos := [],
    nextAptId := 3, nextImgId := 1, clock := 2 }

/-! ### C1 — public list is filtered to available, admin list is unfiltered -/

/-- C1: a request whose Authorization header is present and starts with
`Bearer` receives every stored listing; any other request receives exactly
the listings stored with `available = 1`, and in particular every listing in
such a response has `available = true`. -/
theorem C1_public_filter_admin_unfiltered (auth : Option String) (st : Store) :
    ((getAllApartments auth st).apartments).Perm
      ((if bearerPresent auth then st.apartments
        else st.apartments.filter (fun a => a.available == 1)).map (rowOut st)) ∧
    (bearerPresent auth = false →
      ∀ a ∈ (getAllApartments auth st).apartments, a.view.available = true) := by
  constructor
  · exact (List.perm_insertionSort createdDesc _).map (rowOut st)
  · intro hpub a ha
    simp only [getAllApartments, hpub] at ha
    rcases List.mem_map.mp ha with ⟨r, hr, rfl⟩
    have hr2 := (List.mem_insertionSort _).mp hr
    have hav : (r.available == 1) = true := (List.mem_filter.mp hr2).2
    have hav' : r.available = 1 := by simpa using hav
    simp [rowOut, rowView, hav']

/-- Witness for C1 at a concrete store: the public response is the available
listing only, and it is shown with `available = true`. -/
theorem C1_witness :
    (getAllApartments none stC1).apartments.Perm
      ((if bearerPresent none then stC1.apartments
        else stC1.apartments.filter (fun a => a.available == 1)).map (rowOut stC1)) ∧
    (rowOut stC1 (sampleApt 1 1 0)).view.available = true :=
  ⟨(C1_public_filter_admin_unfiltered none stC1).1,
   (C1_public_filter_admin_unfiltered none stC1).2 rfl (rowOut stC1 (sampleApt 1 1 0))
     (List.mem_singleton.mpr rfl)⟩

/-! ### C7 — image lists are primary-first, then ascending display order -/

/-- Ordering contract of an image list: primary images precede non-primary
ones, and two images with the same flag appear in ascending display order. -/
def primaryFirstOrdered (l : List ImageRow) : Prop :=
  l.Pairwise (fun a b => (b.is_primary = true → a.is_primary = true) ∧
    (a.is_primary = b.is_primary → a.display_order ≤ b.display_order))

theorem imgLE_implies {a b : ImageRow} (h : imgLE a b) :
    (b.is_primary = true → a.is_primary = true) ∧
    (a.is_primary = b.is_primary → a.display_order ≤ b.display_order) := by
  constructor
  · intro hb
    have hrb : imgRank b = 0 := by simp [imgRank, hb]
    rcases h with h | ⟨h, _⟩
    · exact absurd (hrb ▸ h) (Nat.not_lt_zero _)
    · by_cases ha : a.is_primary
      · exact ha
      · exfalso
        rw [hrb] at h
        simp [imgRank, ha] at h
  · intro hab
    have hr : imgRank a = imgRank b := by simp [imgRank, hab]
    rcases h with h | ⟨_, h2⟩
    · exact absurd (hr ▸ h) (lt_irrefl _)
    · exact h2

theorem imagesFor_pairwise (st : Store) (aptId : Nat) :
    primaryFirstOrdered (imagesFor st aptId) :=
  (List.sorted_insertionSort imgLE _).imp (fun h => imgLE_implies h)

/-- C7: every image list returned by the list operation and by the get-by-id
operation is ordered primary-first, then by ascending display order. -/
theorem C7_images_primary_first :
    (∀ auth st, ∀ a ∈ (getAllApartments auth st).apartments, primaryFirstOrdered a.images) ∧
    (∀ st id out, getApartmentById st id = GetResp.ok out → primaryFirstOrdered out.images) := by
  constructor
  · intro auth st a ha
    simp only [getAllApartments] at ha
    rcases List.mem_map.mp ha with ⟨r, _, rfl⟩
    exact imagesFor_pairwise st r.id
  · intro st id out hout
    simp only [getApartmentById] at hout
    rcases hfind : st.apartments.find? (fun a => a.id == id) with _ | apt
    · rw [hfind] at hout
      exact absurd hout (by simp)
    · rw [hfind] at hout
      injection hout with h
      subst h
      exact imagesFor_pairwise st apt.id

/-- A store holding one listing with one primary and one non-primary image. -/
def stC7 : Store :=
  { apartments := [sampleApt 1 1 0],
    images := [{ id := 1, apartment_id := 1, image_url := "a.jpg",
                 is_primary := false, display_order := 0 },
               { id := 2, apartment_id := 1, image_url := "b.jpg",
                 is_primary := true, display_order := 1 }],
    videos := [], nextAptId := 2, nextImgId := 3, clock := 1 }

/-- Witness for C7: the get-by-id response of a concrete store is ordered
primary-first. -/
theorem C7_witness : primaryFirstOrdered (rowOut stC7 (sampleApt 1 1 0)).images :=
  C7_images_primary_first.2 stC7 1 (rowOut stC7 (sampleApt 1 1 0)) rfl

/-! ### C6 — unknown username and wrong password are indistinguishable -/

/-- C6: a login whose username is not in the admin-user store and a login
whose username exists but whose password fails the hash comparison receive
literally the same response: status 401 with error `Invalid credentials` and
message `Username or password is incorrect`. -/
theorem C6_login_indistinguishable
    (compare : String → String → Bool) (sign : Nat → String → String)
    (admins : List AdminUser) (u1 p1 u2 p2 : String)
    (hu1 : u1 ≠ "") (hp1 : p1 ≠ "") (hu2 : u2 ≠ "") (hp2 : p2 ≠ "")
    (hnone : admins.find? (fun a => a.username == u1) = none)
    (a : AdminUser) (hsome : admins.find? (fun a => a.username == u2) = some a)
    (hbad : compare p2 a.password = false) :
    login compare sign admins u1 p1 = login compare sign admins u2 p2 ∧
    login compare sign admins u1 p1 =
      LoginResp.err 401 "Invalid credentials" "Username or password is incorrect" := by
  have h1 : login compare sign admins u1 p1 =
      LoginResp.err 401 "Invalid credentials" "Username or password is incorrect" := by
    simp [login, hu1, hp1, hnone]
  have h2 : login compare sign admins u2 p2 =
      LoginResp.err 401 "Invalid credentials" "Username or password is incorrect" := by
    simp [login, hu2, hp2, hsome, hbad]
  exact ⟨h1.trans h2.symm, h1⟩

/-- The admin-user table used by the C6 witness. -/
def adminsC6 : List AdminUser := [{ id := 1, username := "admin", password := "hash" }]

/-- Witness for C6: with a bcrypt comparison that rejects everything, the
unknown-username login and the wrong-password login coincide. -/
theorem C6_witness :
    login (fun _ _ => false) (fun _ _ => "t") adminsC6 "ghost" "pw" =
      login (fun _ _ => false) (fun _ _ => "t") adminsC6 "admin" "wrong" ∧
    login (fun _ _ => false) (fun _ _ => "t") adminsC6 "ghost" "pw" =
      LoginResp.err 401 "Invalid credentials" "Username or password is incorrect" :=
  C6_login_indistinguishable (fun _ _ => false) (fun _ _ => "t") adminsC6
    "ghost" "pw" "admin" "wrong" (by decide) (by decide) (by decide) (by decide)
    rfl { id := 1, username := "admin", password := "hash" } rfl rfl
/-! ### C8 — middleware status characterization -/

/-- C8: the middleware responds 401 exactly when the header is absent or
falsy, the token split off the header is missing or empty, or the verifier
reports `JsonWebTokenError` or `TokenExpiredError`; it responds 500 exactly
when the verifier fails with any other error; and when verification succeeds
the request proceeds carrying the decoded identity. -/
theorem C8_middleware_status (verify : String → VerifyResult) (authHeader : Option String) :
    ((authenticateAdmin verify authHeader).status = some 401 ↔
      (authHeader = none ∨ ∃ h, authHeader = some h ∧
        (h = "" ∨ (jsSplit h ' ')[1]? = none ∨ (jsSplit h ' ')[1]? = some "" ∨
         ∃ t, (jsSplit h ' ')[1]? = some t ∧ t ≠ "" ∧
           (verify t = .jsonWebTokenError ∨ verify t = .tokenExpiredError)))) ∧
    ((authenticateAdmin verify authHeader).status = some 500 ↔
      ∃ h t m, authHeader = some h ∧ (jsSplit h ' ')[1]? = some t ∧ t ≠ "" ∧
        verify t = .otherError m) ∧
    (∀ h t i u, authHeader = some h → (jsSplit h ' ')[1]? = some t → t ≠ "" →
      verify t = .ok i u → authenticateAdmin verify authHeader = .proceed i u) := by
  rcases authHeader with _ | h
  · refine ⟨iff_of_true rfl (Or.inl rfl),
      iff_of_false (by simp [authenticateAdmin, AuthOutcome.status]) ?_, ?_⟩
    · rintro ⟨h, t, m, hh, -, -, -⟩
      exact Option.noConfusion hh
    · intro h t i u hh _ _ _
      exact Option.noConfusion hh
  · by_cases h0 : h = ""
    · subst h0
      refine ⟨iff_of_true rfl (Or.inr ⟨"", rfl, Or.inl rfl⟩),
        iff_of_false (by simp [authenticateAdmin, AuthOutcome.status]) ?_, ?_⟩
      · rintro ⟨h', t, m, hh, ht, -, -⟩
        injection hh with hh
        subst hh
        rw [show (jsSplit "" ' ')[1]? = none from rfl] at ht
        exact Option.noConfusion ht
      · intro h' t i u hh ht _ _
        injection hh with hh
        subst hh
        rw [show (jsSplit "" ' ')[1]? = none from rfl] at ht
        exact Option.noConfusion ht
    · rcases e : (jsSplit h ' ')[1]? with _ | t
      · have hA : authenticateAdmin verify (some h) =
            .respond 401 "Invalid token format" "Token should be: Bearer <token>" := by
          simp [authenticateAdmin, h0, e]
        refine ⟨iff_of_true (by rw [hA]; rfl) (Or.inr ⟨h, rfl, Or.inr (Or.inl e)⟩),
          iff_of_false (by rw [hA]; simp [AuthOutcome.status]) ?_, ?_⟩
        · rintro ⟨h', t, m, hh, ht, -, -⟩
          injection hh with hh
          subst hh
          rw [e] at ht
          exact Option.noConfusion ht
        · intro h' t i u hh ht _ _
          injection hh with hh
          subst hh
          rw [e] at ht
          exact Option.noConfusion ht
      · by_cases t0 : t = ""
        · subst t0
          have hA : authenticateAdmin verify (some h) =
              .respond 401 "Invalid token format" "Token should be: Bearer <token>" := by
            simp [authenticateAdmin, h0, e]
          refine ⟨iff_of_true (by rw [hA]; rfl)
              (Or.inr ⟨h, rfl, Or.inr (Or.inr (Or.inl e))⟩),
            iff_of_false (by rw [hA]; simp [AuthOutcome.status]) ?_, ?_⟩
          · rintro ⟨h', t', m, hh, ht, ht0, -⟩
            injection hh with hh
            subst hh
            rw [e] at ht
            injection ht with ht
            exact ht0 ht.symm
          · intro h' t' i u hh ht ht0 _
            injection hh with hh
            subst hh
            rw [e] at ht
            injection ht with ht
            exact absurd ht.symm ht0
        · cases hv : verify t with
          | ok i u =>
            have hA : authenticateAdmin verify (some h) = .proceed i u := by
              simp [authenticateAdmin, h0, e, t0, hv]
            refine ⟨iff_of_false (by rw [hA]; simp [AuthOutcome.status]) ?_,
              iff_of_false (by rw [hA]; simp [AuthOutcome.status]) ?_, ?_⟩
            · rintro (hn | ⟨h', hh, hc⟩)
              · exact Option.noConfusion hn
              · injection hh with hh
                subst hh
                rcases hc with hc | hc | hc | ⟨t', ht', ht0', hvv⟩
                · exact h0 hc
                · rw [e] at hc
                  exact Option.noConfusion hc
                · rw [e] at hc
                  injection hc with hc
                  exact t0 hc
                · rw [e] at ht'
                  injection ht' with ht'
                  subst ht'
                  rw [hv] at hvv
                  rcases hvv with hvv | hvv <;> exact VerifyResult.noConfusion hvv
            · rintro ⟨h', t', m, hh, ht', -, hm⟩
              injection hh with hh
              subst hh
              rw [e] at ht'
              injection ht' with ht'
              subst ht'
              rw [hv] at hm
              exact VerifyResult.noConfusion hm
            · intro h' t' i' u' hh ht' _ hv'
              injection hh with hh
              subst hh
              rw [e] at ht'
              injection ht' with ht'
              subst ht'
              rw [hv] at hv'
              injection hv' with hi hu
              subst hi
              subst hu
              exact hA
          | jsonWebTokenError =>
            have hA : authenticateAdmin verify (some h) =
                .respond 401 "Invalid token" "Please login again" := by
              simp [authenticateAdmin, h0, e, t0, hv]
            refine ⟨iff_of_true (by rw [hA]; rfl)
                (Or.inr ⟨h, rfl, Or.inr (Or.inr (Or.inr ⟨t, e, t0, Or.inl hv⟩))⟩),
              iff_of_false (by rw [hA]; simp [AuthOutcome.status]) ?_, ?_⟩
            · rintro ⟨h', t', m, hh, ht', -, hm⟩
              injection hh with hh
              subst hh
              rw [e] at ht'
              injection ht' with ht'
              subst ht'
              rw [hv] at hm
              exact VerifyResult.noConfusion hm
            · intro h' t' i' u' hh ht' _ hv'
              injection hh with hh
              subst hh
              rw [e] at ht'
              injection ht' with ht'
              subst ht'
              rw [hv] at hv'
              exact VerifyResult.noConfusion hv'
          | tokenExpiredError =>
            have hA : authenticateAdmin verify (some h) =
                .respond 401 "Token expired" "Your session has expired. Please login again" := by
              simp [authenticateAdmin, h0, e, t0, hv]
            refine ⟨iff_of_true (by rw [hA]; rfl)
                (Or.inr ⟨h, rfl, Or.inr (Or.inr (Or.inr ⟨t, e, t0, Or.inr hv⟩))⟩),
              iff_of_false (by rw [hA]; simp [AuthOutcome.status]) ?_, ?_⟩
            · rintro ⟨h', t', m, hh, ht', -, hm⟩
              injection hh with hh
              subst hh
              rw [e] at ht'
              injection ht' with ht'
              subst ht'
              rw [hv] at hm
              exact VerifyResult.noConfusion hm
            · intro h' t' i' u' hh ht' _ hv'
              injection hh with hh
              subst hh
              rw [e] at ht'
              injection ht' with ht'
              subst ht'
              rw [hv] at hv'
              exact VerifyResult.noConfusion hv'
          | otherError m =>
            have hA : authenticateAdmin verify (some h) =
                .respond 500 "Authentication failed" m := by
              simp [authenticateAdmin, h0, e, t0, hv]
            refine ⟨iff_of_false (by rw [hA]; simp [AuthOutcome.status]) ?_,
              iff_of_true (by rw [hA]; rfl) ⟨h, t, m, rfl, e, t0, hv⟩, ?_⟩
            · rintro (hn | ⟨h', hh, hc⟩)
              · exact Option.noConfusion hn
              · injection hh with hh
                subst hh
                rcases hc with hc | hc | hc | ⟨t', ht', ht0', hvv⟩
                · exact h0 hc
                · rw [e] at hc
                  exact Option.noConfusion hc
                · rw [e] at hc
                  injection hc with hc
                  exact t0 hc
                · rw [e] at ht'
                  injection ht' with ht'
                  subst ht'
                  rw [hv] at hvv
                  rcases hvv with hvv | hvv <;> exact VerifyResult.noConfusion hvv
            · intro h' t' i' u' hh ht' _ hv'
              injection hh with hh
              subst hh
              rw [e] at ht'
              injection ht' with ht'
              subst ht'
              rw [hv] at hv'
              exact VerifyResult.noConfusion hv'

/-- Witness for C8: a verifier that succeeds lets the request proceed with
the decoded identity. -/
theorem C8_witness :
    authenticateAdmin (fun _ => VerifyResult.ok 7 "admin") (some "Bearer tok") =
      AuthOutcome.proceed 7 "admin" :=
  (C8_middleware_status (fun _ => VerifyResult.ok 7 "admin") (some "Bearer tok")).2.2
    "Bearer tok" "tok" 7 "admin" rfl rfl (by decide) rfl

/-! ### C3 — create validation uses JavaScript falsiness -/

/-- C3 (amended): creation signals the 400 validation error exactly when one
of the eight required fields is JavaScript-falsy — which covers absent and
`null` values but also `0`, `false` and the empty string — and whenever the
error is signalled the store is unchanged. -/
theorem C3_create_validation (st : Store) (body : ReqBody) :
    ((∃ e m, (createApartment st body).1 = .badRequest e m) ↔
      (truthy (getField body "title") = false ∨ truthy (getField body "bedrooms") = false ∨
       truthy (getField body "bathrooms") = false ∨ truthy (getField body "max_guests") = false ∨
       truthy (getField body "price_per_night") = false ∨ truthy (getField body "address") = false ∨
       truthy (getField body "city") = false ∨ truthy (getField body "state") = false)) ∧
    (∀ e m, (createApartment st body).1 = .badRequest e m → (createApartment st body).2 = st) := by
  by_cases hc : (!truthy (getField body "title") || !truthy (getField body "bedrooms")
      || !truthy (getField body "bathrooms") || !truthy (getField body "max_guests")
      || !truthy (getField body "price_per_night") || !truthy (getField body "address")
      || !truthy (getField body "city") || !truthy (getField body "state")) = true
  · refine ⟨iff_of_true
      ⟨"Missing required fields",
       "Title, bedrooms, bathrooms, max_guests, price_per_night, address, city, and state are required",
       by simp [createApartment, hc]⟩ ?_,
      fun e m _ => by simp [createApartment, hc]⟩
    have hc' := hc
    simp only [Bool.or_eq_true, Bool.not_eq_eq_eq_not, Bool.not_true] at hc'
    tauto
  · have hc' : (!truthy (getField body "title") || !truthy (getField body "bedrooms")
        || !truthy (getField body "bathrooms") || !truthy (getField body "max_guests")
        || !truthy (getField body "price_per_night") || !truthy (getField body "address")
        || !truthy (getField body "city") || !truthy (getField body "state")) = false := by
      simpa using hc
    refine ⟨iff_of_false ?_ ?_, ?_⟩
    · rintro ⟨e, m, hB⟩
      simp [createApartment, hc'] at hB
    · rintro (h | h | h | h | h | h | h | h) <;> simp [h] at hc
    · intro e m hB
      simp [createApartment, hc'] at hB

/-- A create body in which every required field is present and non-null but
`bedrooms` is the number 0. -/
def bodyC3 : ReqBody :=
  [("title", .vStr "Test"), ("bedrooms", .vNum 0), ("bathrooms", .vNum 1),
   ("max_guests", .vNum 3), ("price_per_night", .vNum 20000),
   ("address", .vStr "12 Street"), ("city", .vStr "Abuja"), ("state", .vStr "FCT")]

/-- Counterexample to C3 as stated: with `bedrooms = 0` every required field
is present and non-null, yet the handler signals the 400 validation error,
because the check uses JavaScript falsiness. -/
theorem C3_counterexample :
    (createApartment emptyStore bodyC3).1 =
      CreateResp.badRequest "Missing required fields"
        "Title, bedrooms, bathrooms, max_guests, price_per_night, address, city, and state are required" ∧
    getField bodyC3 "bedrooms" = JsValue.vNum 0 ∧
    JsValue.vNum 0 ≠ JsValue.vNull ∧ JsValue.vNum 0 ≠ JsValue.vUndefined :=
  ⟨rfl, rfl, fun h => JsValue.noConfusion h, fun h => JsValue.noConfusion h⟩

/-- Witness for C3: a body missing `title` is rejected and leaves the store
unchanged. -/
theorem C3_witness :
    ((∃ e m, (createApartment emptyStore [("bedrooms", JsValue.vNum 2)]).1 =
        CreateResp.badRequest e m) ↔
      (truthy (getField [("bedrooms", JsValue.vNum 2)] "title") = false ∨
       truthy (getField [("bedrooms", JsValue.vNum 2)] "bedrooms") = false ∨
       truthy (getField [("bedrooms", JsValue.vNum 2)] "bathrooms") = false ∨
       truthy (getField [("bedrooms", JsValue.vNum 2)] "max_guests") = false ∨
       truthy (getField [("bedrooms", JsValue.vNum 2)] "price_per_night") = false ∨
       truthy (getField [("bedrooms", JsValue.vNum 2)] "address") = false ∨
       truthy (getField [("bedrooms", JsValue.vNum 2)] "city") = false ∨
       truthy (getField [("bedrooms", JsValue.vNum 2)] "state") = false)) ∧
    (createApartment emptyStore [("bedrooms", JsValue.vNum 2)]).2 = emptyStore :=
  ⟨(C3_create_validation emptyStore [("bedrooms", JsValue.vNum 2)]).1,
   (C3_create_validation emptyStore [("bedrooms", JsValue.vNum 2)]).2
     "Missing required fields"
     "Title, bedrooms, bathrooms, max_guests, price_per_night, address, city, and state are required"
     rfl⟩

/-! ### C9 — create-then-get round trip -/

/-- Amenities list of a get-by-id response, when it succeeded. -/
def GetResp.amenitiesOf : GetResp → Option (List JsValue)
  | .ok out => some out.view.amenities
  | _ => none

/-- Image list of a get-by-id response, when it succeeded. -/
def GetResp.imagesOf : GetResp → Option (List ImageRow)
  | .ok out => some out.images
  | _ => none

/-- Video list of a get-by-id response, when it succeeded. -/
def GetResp.videosOf : GetResp → Option (List VideoRow)
  | .ok out => some out.videos
  | _ => none

/-- Id of the apartment returned by a successful create response. -/
def CreateResp.idOf : CreateResp → Option Nat
  | .created _ apt => some apt.view.id
  | _ => none

/-- The create body of the spec's round-trip example (no amenities given). -/
def bodyC9 : ReqBody :=
  [("title", .vStr "Test"), ("bedrooms", .vNum 2), ("bathrooms", .vNum 1),
   ("max_guests", .vNum 3), ("price_per_night", .vNum 20000),
   ("address", .vStr "12 Street"), ("city", .vStr "Abuja"), ("state", .vStr "FCT")]

/-- The row the C9 create inserts. -/
def rowC9 (st : Store) : ApartmentRow :=
  { id := st.nextAptId, title := .vStr "Test", description := .vUndefined, bedrooms := .vNum 2,
    bathrooms := .vNum 1, max_guests := .vNum 3, price_per_night := .vNum 20000,
    address := .vStr "12 Street", city := .vStr "Abuja", state := .vStr "FCT",
    available := 1, featured := 0, amenities := some [],
    created_at := st.clock, updated_at := st.clock }

/-- C9: creating the example listing and fetching it by its returned id
yields empty amenities, images and videos (in a store whose image and video
rows do not already use the fresh id). -/
theorem C9_create_then_get (st : Store)
    (hA : ∀ a ∈ st.apartments, a.id ≠ st.nextAptId)
    (hI : ∀ i ∈ st.images, i.apartment_id ≠ st.nextAptId)
    (hV : ∀ v ∈ st.videos, v.apartment_id ≠ st.nextAptId) :
    (createApartment st bodyC9).1.idOf = some st.nextAptId ∧
    (getApartmentById (createApartment st bodyC9).2 st.nextAptId).amenitiesOf = some [] ∧
    (getApartmentById (createApartment st bodyC9).2 st.nextAptId).imagesOf = some [] ∧
    (getApartmentById (createApartment st bodyC9).2 st.nextAptId).videosOf = some [] := by
  have hc : createApartment st bodyC9 =
      (.created "Apartment created successfully"
        { view := rowView (rowC9 st), images := [], videos := [] },
       { st with apartments := st.apartments ++ [rowC9 st],
                 nextAptId := st.nextAptId + 1, clock := st.clock + 1 }) := rfl
  have h1 : st.apartments.find? (fun a => a.id == st.nextAptId) = none :=
    List.find?_eq_none.mpr (fun x hx => by simp [hA x hx])
  have hfind : (createApartment st bodyC9).2.apartments.find?
      (fun a => a.id == st.nextAptId) = some (rowC9 st) := by
    rw [hc]
    simp [List.find?_append, h1, rowC9]
  have himg : imagesFor (createApartment st bodyC9).2 st.nextAptId = [] := by
    have hfil : st.images.filter (fun r => r.apartment_id == st.nextAptId) = [] :=
      List.filter_eq_nil_iff.mpr (fun x hx => by simp [hI x hx])
    rw [hc]
    simp [imagesFor, hfil]
  have hvid : videosFor (createApartment st bodyC9).2 st.nextAptId = [] := by
    have hfil : st.videos.filter (fun r => r.apartment_id == st.nextAptId) = [] :=
      List.filter_eq_nil_iff.mpr (fun x hx => by simp [hV x hx])
    rw [hc]
    simp [videosFor, hfil]
  refine ⟨by rw [hc]; rfl, ?_, ?_, ?_⟩
  · simp [getApartmentById, hfind, GetResp.amenitiesOf, rowOut, rowView, rowC9]
  · simp only [getApartmentById, hfind]
    simp [GetResp.imagesOf, rowOut, show (rowC9 st).id = st.nextAptId from rfl, himg]
  · simp only [getApartmentById, hfind]
    simp [GetResp.videosOf, rowOut, show (rowC9 st).id = st.nextAptId from rfl, hvid]

/-- Witness for C9 at the freshly initialised store. -/
theorem C9_witness :
    (createApartment emptyStore bodyC9).1.idOf = some emptyStore.nextAptId ∧
    (getApartmentById (createApartment emptyStore bodyC9).2 emptyStore.nextAptId).amenitiesOf =
      some [] ∧
    (getApartmentById (createApartment emptyStore bodyC9).2 emptyStore.nextAptId).imagesOf =
      some [] ∧
    (getApartmentById (createApartment emptyStore bodyC9).2 emptyStore.nextAptId).videosOf =
      some [] :=
  C9_create_then_get emptyStore (by simp [emptyStore]) (by simp [emptyStore])
    (by simp [emptyStore])

/-! ### C4 — update: 404, allow-list, no-op validation -/

theorem applyField_id (r : ApartmentRow) (kv : String × JsValue) :
    (applyField r kv).id = r.id := by
  unfold applyField
  split <;> rfl

theorem applyField_created_at (r : ApartmentRow) (kv : String × JsValue) :
    (applyField r kv).created_at = r.created_at := by
  unfold applyField
  split <;> rfl

theorem foldl_applyField_id (fields : List (String × JsValue)) (r : ApartmentRow) :
    (fields.foldl applyField r).id = r.id := by
  induction fields generalizing r with
  | nil => rfl
  | cons kv rest ih => rw [List.foldl_cons, ih, applyField_id]

theorem foldl_applyField_created_at (fields : List (String × JsValue)) (r : ApartmentRow) :
    (fields.foldl applyField r).created_at = r.created_at := by
  induction fields generalizing r with
  | nil => rfl
  | cons kv rest ih => rw [List.foldl_cons, ih, applyField_created_at]

/-- C4: updating a missing id returns 404 and changes nothing; updating an
existing row with a body containing no allow-listed key returns 400 and
changes nothing; the whole operation only ever sees the allow-listed part of
the body (filtering the body to the allow-list first gives the same result);
and a successful update never rewrites the row's `id` or `created_at`, the
columns outside the allow-list that the handler does not set itself. -/
theorem C4_update_allowlist (st : Store) (id : Nat) (body : ReqBody) :
    (st.apartments.find? (fun a => a.id == id) = none →
      updateApartment st id body =
        (.notFound "Apartment not found" ("No apartment found with ID: " ++ toString id), st)) ∧
    (∀ r, st.apartments.find? (fun a => a.id == id) = some r →
      body.filter (fun kv => allowedFields.contains kv.1) = [] →
      updateApartment st id body =
        (.badRequest "No valid fields to update" "Provide at least one valid field to update",
         st)) ∧
    updateApartment st id body =
      updateApartment st id (body.filter (fun kv => allowedFields.contains kv.1)) ∧
    (∀ r, st.apartments.find? (fun a => a.id == id) = some r →
      ∀ msg v, (updateApartment st id body).1 = .ok msg v →
        v.id = r.id ∧ v.created_at = r.created_at) := by
  refine ⟨?_, ?_, ?_, ?_⟩
  · intro h
    simp [updateApartment, h]
  · intro r hr hfil
    simp [updateApartment, hr, hfil]
    intro x y hxy
    have := List.filter_eq_nil_iff.mp hfil _ hxy
    simpa using this
  · rcases hr : st.apartments.find? (fun a => a.id == id) with _ | r
    · simp [updateApartment, hr]
    · simp only [updateApartment, hr]
      rw [List.filter_filter]
      simp only [Bool.and_self]
  · intro r hr msg v hok
    simp only [updateApartment, hr] at hok
    rcases hfil : body.filter (fun kv => allowedFields.contains kv.1) with _ | ⟨kv0, rest⟩
    · rw [hfil] at hok
      simp at hok
    · rw [hfil] at hok
      simp at hok
      obtain ⟨hm, hv⟩ := hok
      subst hv
      constructor
      · simp [rowView, foldl_applyField_id, applyField_id]
      · simp [rowView, foldl_applyField_created_at, applyField_created_at]

/-- A store holding one listing with id 1. -/
def stC4 : Store :=
  { apartments := [sampleApt 1 1 0], images := [], videos := [],
    nextAptId := 2, nextImgId := 1, clock := 1 }

/-- A partial update body with one allow-listed and one foreign key. -/
def bodyC4 : ReqBody := [("title", .vStr "New"), ("junk", .vNum 5)]

/-- Witness for C4: an absent id yields 404 with the store unchanged, and a
successful title update keeps `id` and `created_at`. -/
theorem C4_witness :
    updateApartment stC4 2 bodyC4 =
      (UpdateResp.notFound "Apartment not found" "No apartment found with ID: 2", stC4) ∧
    ((rowView { sampleApt 1 1 0 with
      title := JsValue.vStr "New",
      updated_at := stC4.clock }).id = (sampleApt 1 1 0).id ∧
     (rowView { sampleApt 1 1 0 with
      title := JsValue.vStr "New",
      updated_at := stC4.clock }).created_at = (sampleApt 1 1 0).created_at) :=
  ⟨(C4_update_allowlist stC4 2 bodyC4).1 rfl,
   (C4_update_allowlist stC4 1 bodyC4).2.2.2 (sampleApt 1 1 0) rfl
     "Apartment updated successfully"
     (rowView { sampleApt 1 1 0 with
      title := JsValue.vStr "New",
      updated_at := stC4.clock }) rfl⟩

/-! ### C5 — delete: 404, cascade, best-effort unlink -/

/-- C5: deleting a missing id returns 404 with the store unchanged and no
log; deleting an existing id succeeds, and afterwards no apartment row with
that id and no image or video row belonging to it remains while all other
rows survive; and the response and the resulting store do not depend on
whether the file unlinks succeed (failures are only logged). -/
theorem C5_delete_cascade (unlinkOk : String → Bool) (st : Store) (id : Nat) :
    (st.apartments.find? (fun a => a.id == id) = none →
      deleteApartment unlinkOk st id =
        { resp := .notFound "Apartment not found" ("No apartment found with ID: " ++ toString id),
          store := st, logs := [] }) ∧
    (∀ r, st.apartments.find? (fun a => a.id == id) = some r →
      (deleteApartment unlinkOk st id).resp = .ok "Apartment deleted successfully" ∧
      (∀ a ∈ (deleteApartment unlinkOk st id).store.apartments, a.id ≠ id) ∧
      (∀ i ∈ (deleteApartment unlinkOk st id).store.images, i.apartment_id ≠ id) ∧
      (∀ v ∈ (deleteApartment unlinkOk st id).store.videos, v.apartment_id ≠ id) ∧
      (∀ a ∈ st.apartments, a.id ≠ id → a ∈ (deleteApartment unlinkOk st id).store.apartments) ∧
      (∀ i ∈ st.images, i.apartment_id ≠ id → i ∈ (deleteApartment unlinkOk st id).store.images) ∧
      (∀ v ∈ st.videos, v.apartment_id ≠ id → v ∈ (deleteApartment unlinkOk st id).store.videos)) ∧
    (∀ g : String → Bool,
      (deleteApartment unlinkOk st id).resp = (deleteApartment g st id).resp ∧
      (deleteApartment unlinkOk st id).store = (deleteApartment g st id).store) := by
  refine ⟨?_, ?_, ?_⟩
  · intro h
    simp [deleteApartment, h]
  · intro r hr
    refine ⟨by simp [deleteApartment, hr], ?_, ?_, ?_, ?_, ?_, ?_⟩
    · intro a ha
      simp [deleteApartment, hr, List.mem_filter] at ha
      exact ha.2
    · intro i hi
      simp [deleteApartment, hr, List.mem_filter] at hi
      exact hi.2
    · intro v hv
      simp [deleteApartment, hr, List.mem_filter] at hv
      exact hv.2
    · intro a ha hne
      simp [deleteApartment, hr, List.mem_filter]
      exact ⟨ha, hne⟩
    · intro i hi hne
      simp [deleteApartment, hr, List.mem_filter]
      exact ⟨hi, hne⟩
    · intro v hv hne
      simp [deleteApartment, hr, List.mem_filter]
      exact ⟨hv, hne⟩
  · intro g
    rcases hr : st.apartments.find? (fun a => a.id == id) with _ | r <;>
      simp [deleteApartment, hr]

/-- A store with two listings, each owning media. -/
def stC5 : Store :=
  { apartments := [sampleApt 1 1 0, sampleApt 2 1 1],
    images := [{ id := 1, apartment_id := 1, image_url := "a.jpg",
                 is_primary := false, display_order := 0 },
               { id := 2, apartment_id := 2, image_url := "b.jpg",
                 is_primary := false, display_order := 0 }],
    videos := [{ id := 1, apartment_id := 1, video_url := "a.mp4" }],
    nextAptId := 3, nextImgId := 3, clock := 2 }

/-- Witness for C5: deleting listing 1 succeeds even when every unlink fails,
and the resulting store equals the one obtained when every unlink succeeds. -/
theorem C5_witness :
    (deleteApartment (fun _ => false) stC5 1).resp = DelResp.ok "Apartment deleted successfully" ∧
    (deleteApartment (fun _ => false) stC5 1).store = (deleteApartment (fun _ => true) stC5 1).store :=
  ⟨((C5_delete_cascade (fun _ => false) stC5 1).2.1 (sampleApt 1 1 0) rfl).1,
   ((C5_delete_cascade (fun _ => false) stC5 1).2.2 (fun _ => true)).2⟩

/-! ### Equation lemmas for the media routes -/

theorem uploadImages_store_eq (st : Store) (aptId : Nat) (files : List UploadedFile)
    (r : ApartmentRow) (hf : st.apartments.find? (fun a => a.id == aptId) = some r)
    (hne : files ≠ []) :
    (uploadImages st aptId files).2 =
      { st with
        images := st.images ++ mkImageRows aptId st.nextImgId
          (jsOrNegOne (maxDisplayOrder st aptId) + 1) files,
        nextImgId := st.nextImgId + files.length } := by
  rcases files with _ | ⟨f, fs⟩
  · exact absurd rfl hne
  · simp [uploadImages, hf]

theorem uploadImages_store_notFound (st : Store) (aptId : Nat) (files : List UploadedFile)
    (hf : st.apartments.find? (fun a => a.id == aptId) = none) :
    (uploadImages st aptId files).2 = st := by
  simp [uploadImages, hf]

theorem uploadImages_store_noFiles (st : Store) (aptId : Nat) :
    (uploadImages st aptId []).2 = st := by
  rcases hf : st.apartments.find? (fun a => a.id == aptId) with _ | r <;>
    simp [uploadImages, hf]

theorem setPrimaryImage_store_eq (st : Store) (aptId imgId : Nat) (img : ImageRow)
    (hf : st.images.find? (fun r => r.id == imgId && r.apartment_id == aptId) = some img) :
    (setPrimaryImage st aptId imgId).2 =
      { st with
        images := (st.images.map (fun r =>
            if r.apartment_id == aptId then { r with is_primary := false } else r)).map
          (fun r => if r.id == imgId then { r with is_primary := true } else r) } := by
  simp [setPrimaryImage, hf]

theorem setPrimaryImage_store_notFound (st : Store) (aptId imgId : Nat)
    (hf : st.images.find? (fun r => r.id == imgId && r.apartment_id == aptId) = none) :
    (setPrimaryImage st aptId imgId).2 = st := by
  simp [setPrimaryImage, hf]

/-! ### C10 — display orders of uploaded images (corrected) -/

theorem sqlMax_eq_none {l : List Int} : sqlMax l = none ↔ l = [] := by
  cases l with
  | nil => simp [sqlMax]
  | cons y ys =>
    simp only [sqlMax]
    cases sqlMax ys <;> simp

theorem sqlMax_le {l : List Int} {m : Int} (h : sqlMax l = some m) : ∀ x ∈ l, x ≤ m := by
  induction l generalizing m with
  | nil => simp [sqlMax] at h
  | cons y ys ih =>
    intro x hx
    rcases hm : sqlMax ys with _ | m'
    · have hys : ys = [] := sqlMax_eq_none.mp hm
      subst hys
      simp only [sqlMax, hm] at h
      injection h with h
      subst h
      rcases List.mem_cons.mp hx with rfl | hx
      · exact le_refl _
      · cases hx
    · simp only [sqlMax, hm] at h
      injection h with h
      subst h
      rcases List.mem_cons.mp hx with rfl | hx
      · exact le_max_left _ _
      · exact le_trans (ih hm x hx) (le_max_right _ _)

theorem mkImageRows_orders (aptId startId : Nat) (startOrder : Int)
    (files : List UploadedFile) :
    (mkImageRows aptId startId startOrder files).map (fun r => r.display_order) =
      (List.range files.length).map (fun i : Nat => startOrder + (i : Int)) := by
  induction files generalizing startId startOrder with
  | nil => rfl
  | cons f fs ih =>
    simp only [mkImageRows, List.map_cons, ih, List.length_cons,
      List.range_succ_eq_map, List.map_map, List.cons.injEq]
    constructor
    · simp
    · apply List.map_congr_left
      intro i _
      simp only [Function.comp_apply]
      push_cast
      ring

/-- C10 (amended): an upload of `files` to an existing listing appends rows
whose display orders are consecutive starting at
`(maxOrder?.max_order || -1) + 1`; that start is `max + 1` when the stored
maximum is nonzero, but it is 0 both when the listing has no images and —
because `0` is falsy under `||` — when the stored maximum is 0; accordingly
new display orders strictly exceed all existing ones only in the
nonzero-maximum case. -/
theorem C10_display_order (st : Store) (aptId : Nat) (files : List UploadedFile)
    (r : ApartmentRow) (hfind : st.apartments.find? (fun a => a.id == aptId) = some r)
    (hne : files ≠ []) :
    ((uploadImages st aptId files).2.images.take st.images.length = st.images ∧
     ((uploadImages st aptId files).2.images.drop st.images.length).map
        (fun i => i.display_order) =
       (List.range files.length).map
         (fun i : Nat => jsOrNegOne (maxDisplayOrder st aptId) + 1 + (i : Int))) ∧
    (maxDisplayOrder st aptId = none → jsOrNegOne (maxDisplayOrder st aptId) + 1 = 0) ∧
    (maxDisplayOrder st aptId = some 0 → jsOrNegOne (maxDisplayOrder st aptId) + 1 = 0) ∧
    (∀ m, maxDisplayOrder st aptId = some m → m ≠ 0 →
      jsOrNegOne (maxDisplayOrder st aptId) + 1 = m + 1 ∧
      ∀ i ∈ st.images, i.apartment_id = aptId →
        i.display_order < jsOrNegOne (maxDisplayOrder st aptId) + 1) := by
  have heq := uploadImages_store_eq st aptId files r hfind hne
  refine ⟨⟨?_, ?_⟩, ?_, ?_, ?_⟩
  · rw [heq]
    exact List.take_left _ _
  · rw [heq]
    have hd : ({ st with
        images := st.images ++ mkImageRows aptId st.nextImgId
          (jsOrNegOne (maxDisplayOrder st aptId) + 1) files,
        nextImgId := st.nextImgId + files.length } : Store).images.drop st.images.length =
        mkImageRows aptId st.nextImgId (jsOrNegOne (maxDisplayOrder st aptId) + 1) files :=
      List.drop_left _ _
    rw [hd, mkImageRows_orders]
  · intro h
    rw [h]
    simp [jsOrNegOne]
  · intro h
    rw [h]
    simp [jsOrNegOne]
  · intro m hm hm0
    have hstart : jsOrNegOne (maxDisplayOrder st aptId) + 1 = m + 1 := by
      rw [hm]
      simp [jsOrNegOne, hm0]
    refine ⟨hstart, ?_⟩
    intro i hi hiapt
    rw [hstart]
    have hmem : i.display_order ∈
        (st.images.filter (fun x => x.apartment_id == aptId)).map (fun x => x.display_order) :=
      List.mem_map_of_mem _ (List.mem_filter.mpr ⟨hi, by simp [hiapt]⟩)
    have := sqlMax_le hm _ hmem
    omega

/-- A store whose only listing has one image with display order 0. -/
def stC10 : Store :=
  { apartments := [sampleApt 1 1 0],
    images := [{ id := 1, apartment_id := 1, image_url := "a.jpg",
                 is_primary := false, display_order := 0 }],
    videos := [], nextAptId := 2, nextImgId := 2, clock := 1 }

/-- A one-file upload. -/
def fileC10 : UploadedFile := { path := "b.jpg", filename := "b", size := 1 }

/-- Counterexample to C10 as stated: the stored maximum display order is 0,
so `0 || -1` yields `-1` and the new image is inserted with display order 0 —
not `max + 1 = 1`, and not strictly greater than the existing order 0. -/
theorem C10_counterexample :
    maxDisplayOrder stC10 1 = some 0 ∧
    ((uploadImages stC10 1 [fileC10]).2.images.map (fun r => r.display_order)) =
      [0, 0] ∧
    ¬ ((0 : Int) = 0 + 1) :=
  ⟨rfl, rfl, by decide⟩

/-- Witness for C10: on the concrete store the upload keeps the old rows and
the `|| -1` quirk restarts numbering at 0. -/
theorem C10_witness :
    (uploadImages stC10 1 [fileC10]).2.images.take stC10.images.length = stC10.images ∧
    jsOrNegOne (maxDisplayOrder stC10 1) + 1 = 0 :=
  ⟨((C10_display_order stC10 1 [fileC10] (sampleApt 1 1 0) rfl (by simp)).1).1,
   (C10_display_order stC10 1 [fileC10] (sampleApt 1 1 0) rfl (by simp)).2.2.1 rfl⟩

/-! ### C2 — at most one primary image per listing -/

theorem uploadImages_images_eq (st : Store) (aptId : Nat) (files : List UploadedFile)
    (r : ApartmentRow) (hf : st.apartments.find? (fun a => a.id == aptId) = some r)
    (hne : files ≠ []) :
    (uploadImages st aptId files).2.images =
      st.images ++ mkImageRows aptId st.nextImgId
        (jsOrNegOne (maxDisplayOrder st aptId) + 1) files := by
  rw [uploadImages_store_eq st aptId files r hf hne]

theorem uploadImages_nextImgId_eq (st : Store) (aptId : Nat) (files : List UploadedFile)
    (r : ApartmentRow) (hf : st.apartments.find? (fun a => a.id == aptId) = some r)
    (hne : files ≠ []) :
    (uploadImages st aptId files).2.nextImgId = st.nextImgId + files.length := by
  rw [uploadImages_store_eq st aptId files r hf hne]

theorem setPrimaryImage_images_eq (st : Store) (aptId imgId : Nat) (img : ImageRow)
    (hf : st.images.find? (fun r => r.id == imgId && r.apartment_id == aptId) = some img) :
    (setPrimaryImage st aptId imgId).2.images =
      (st.images.map (fun r =>
          if r.apartment_id == aptId then { r with is_primary := false } else r)).map
        (fun r => if r.id == imgId then { r with is_primary := true } else r) := by
  rw [setPrimaryImage_store_eq st aptId imgId img hf]

theorem setPrimaryImage_nextImgId (st : Store) (aptId imgId : Nat) :
    (setPrimaryImage st aptId imgId).2.nextImgId = st.nextImgId := by
  rcases hf : st.images.find? (fun r => r.id == imgId && r.apartment_id == aptId) with _ | img
  · rw [setPrimaryImage_store_notFound st aptId imgId hf]
  · rw [setPrimaryImage_store_eq st aptId imgId img hf]

theorem setPrimaryImage_map_id (st : Store) (aptId imgId : Nat) :
    (setPrimaryImage st aptId imgId).2.images.map (fun r => r.id) =
      st.images.map (fun r => r.id) := by
  rcases hf : st.images.find? (fun r => r.id == imgId && r.apartment_id == aptId) with _ | img
  · rw [setPrimaryImage_store_notFound st aptId imgId hf]
  · rw [setPrimaryImage_images_eq st aptId imgId img hf]
    simp only [List.map_map]
    apply List.map_congr_left
    intro r _
    simp only [Function.comp_apply]
    by_cases h1 : r.apartment_id == aptId <;> by_cases h2 : r.id == imgId <;> simp [h1, h2]

theorem countP_id_le_one {imgs : List ImageRow}
    (h : (imgs.map (fun r => r.id)).Nodup) (x : Nat) :
    imgs.countP (fun r => r.id == x) ≤ 1 := by
  have h3 := List.nodup_iff_count_le_one.mp h x
  rw [List.count_eq_countP, List.countP_map] at h3
  exact h3

theorem primCount_mkImageRows (aptId startId : Nat) (o : Int)
    (files : List UploadedFile) (q : Nat) :
    primCount (mkImageRows aptId startId o files) q = 0 := by
  induction files generalizing startId o with
  | nil => rfl
  | cons f fs ih =>
    simp only [primCount] at ih ⊢
    simp only [mkImageRows, List.countP_cons]
    rw [ih (startId + 1) (o + 1)]
    simp

theorem mkImageRows_id_bounds (aptId startId : Nat) (o : Int) (files : List UploadedFile) :
    ∀ r ∈ mkImageRows aptId startId o files,
      startId ≤ r.id ∧ r.id < startId + files.length := by
  induction files generalizing startId o with
  | nil =>
    intro r hr
    cases hr
  | cons f fs ih =>
    intro r hr
    rcases List.mem_cons.mp hr with rfl | hr
    · refine ⟨le_of_eq rfl, ?_⟩
      show startId < startId + (fs.length + 1)
      omega
    · obtain ⟨h1, h2⟩ := ih (startId + 1) (o + 1) r hr
      simp only [List.length_cons]
      omega

theorem mkImageRows_ids (aptId startId : Nat) (o : Int) (files : List UploadedFile) :
    (mkImageRows aptId startId o files).map (fun r => r.id) =
      List.range' startId files.length := by
  induction files generalizing startId o with
  | nil => rfl
  | cons f fs ih =>
    simp only [mkImageRows, List.map_cons, List.length_cons, List.range'_succ]
    rw [ih (startId + 1) (o + 1)]

theorem imgIdsOk_upload (st : Store) (aptId : Nat) (files : List UploadedFile)
    (h : imgIdsOk st) : imgIdsOk (uploadImages st aptId files).2 := by
  rcases hf : st.apartments.find? (fun a => a.id == aptId) with _ | r
  · rw [uploadImages_store_notFound st aptId files hf]
    exact h
  · rcases files with _ | ⟨f, fs⟩
    · rw [uploadImages_store_noFiles]
      exact h
    · have hne : (f :: fs) ≠ ([] : List UploadedFile) := by simp
      refine ⟨?_, ?_⟩
      · intro x hx
        rw [uploadImages_images_eq st aptId (f :: fs) r hf hne] at hx
        rw [uploadImages_nextImgId_eq st aptId (f :: fs) r hf hne]
        rcases List.mem_append.mp hx with hx | hx
        · calc x.id < st.nextImgId := h.1 x hx
            _ ≤ st.nextImgId + (f :: fs).length := Nat.le_add_right _ _
        · exact (mkImageRows_id_bounds _ _ _ _ x hx).2
      · rw [uploadImages_images_eq st aptId (f :: fs) r hf hne, List.map_append]
        refine List.Nodup.append h.2 ?_ ?_
        · rw [mkImageRows_ids]
          exact List.nodup_range' _ _
        · rw [List.disjoint_left]
          intro a ha hb
          rcases List.mem_map.mp ha with ⟨x, hx, rfl⟩
          have h1 := h.1 x hx
          rw [mkImageRows_ids] at hb
          have h2 := List.mem_range'_1.mp hb
          omega

theorem imgIdsOk_setPrimary (st : Store) (aptId imgId : Nat)
    (h : imgIdsOk st) : imgIdsOk (setPrimaryImage st aptId imgId).2 := by
  refine ⟨?_, ?_⟩
  · intro x hx
    have hxid : x.id ∈ (setPrimaryImage st aptId imgId).2.images.map (fun r => r.id) :=
      List.mem_map_of_mem _ hx
    rw [setPrimaryImage_map_id] at hxid
    rcases List.mem_map.mp hxid with ⟨x0, hx0, hid⟩
    rw [setPrimaryImage_nextImgId, ← hid]
    exact h.1 x0 hx0
  · rw [setPrimaryImage_map_id]
    exact h.2

theorem atMostOnePrimary_upload (st : Store) (aptId : Nat) (files : List UploadedFile)
    (h : atMostOnePrimary st) : atMostOnePrimary (uploadImages st aptId files).2 := by
  rcases hf : st.apartments.find? (fun a => a.id == aptId) with _ | r
  · rw [uploadImages_store_notFound st aptId files hf]
    exact h
  · rcases files with _ | ⟨f, fs⟩
    · rw [uploadImages_store_noFiles]
      exact h
    · intro q
      have hne : (f :: fs) ≠ ([] : List UploadedFile) := by simp
      rw [show (uploadImages st aptId (f :: fs)).2.images =
          st.images ++ mkImageRows aptId st.nextImgId
            (jsOrNegOne (maxDisplayOrder st aptId) + 1) (f :: fs) from
        uploadImages_images_eq st aptId (f :: fs) r hf hne]
      have h0 := primCount_mkImageRows aptId st.nextImgId
        (jsOrNegOne (maxDisplayOrder st aptId) + 1) (f :: fs) q
      have h1 := h q
      simp only [primCount] at h0 h1 ⊢
      rw [List.countP_append]
      omega

theorem atMostOnePrimary_setPrimary (st : Store) (aptId imgId : Nat)
    (hids : imgIdsOk st) (h : atMostOnePrimary st) :
    atMostOnePrimary (setPrimaryImage st aptId imgId).2 := by
  rcases hf : st.images.find? (fun r => r.id == imgId && r.apartment_id == aptId) with _ | img
  · rw [setPrimaryImage_store_notFound st aptId imgId hf]
    exact h
  · have hmem := List.mem_of_find?_eq_some hf
    have hpred := List.find?_some hf
    simp only [Bool.and_eq_true, beq_iff_eq] at hpred
    intro q
    rw [show (setPrimaryImage st aptId imgId).2.images = _ from
      setPrimaryImage_images_eq st aptId imgId img hf]
    simp only [primCount, List.map_map, List.countP_map]
    by_cases hq : q = aptId
    · subst hq
      refine le_trans (List.countP_mono_left ?_) (countP_id_le_one hids.2 imgId)
      intro x hx hpx
      simp only [Function.comp_apply] at hpx
      by_cases h1 : x.apartment_id == q <;> by_cases h2 : x.id == imgId <;>
        simp [h1, h2] at hpx ⊢
    · have h1 := h q
      simp only [primCount] at h1
      refine le_trans (List.countP_mono_left ?_) h1
      intro x hx hpx
      simp only [Function.comp_apply] at hpx
      by_cases h2 : x.id == imgId
      · exfalso
        have h2' : x.id = imgId := by simpa using h2
        have hxeq : x = img :=
          List.inj_on_of_nodup_map hids.2 hx hmem (by rw [h2', hpred.1])
        have hapt : x.apartment_id = aptId := by rw [hxeq]; exact hpred.2
        simp [h2, hapt, Ne.symm hq] at hpx
      · by_cases h1 : x.apartment_id == aptId
        · simp [h1, h2] at hpx
        · simp [h1, h2] at hpx ⊢
          exact hpx

theorem mediaOp_preserves (st : Store) (op : MediaOp)
    (h : imgIdsOk st ∧ atMostOnePrimary st) :
    imgIdsOk (applyMediaOp st op) ∧ atMostOnePrimary (applyMediaOp st op) := by
  rcases op with ⟨aptId, files⟩ | ⟨aptId, imgId⟩
  · exact ⟨imgIdsOk_upload st aptId files h.1, atMostOnePrimary_upload st aptId files h.2⟩
  · exact ⟨imgIdsOk_setPrimary st aptId imgId h.1,
      atMostOnePrimary_setPrimary st aptId imgId h.1 h.2⟩

/-- C2: starting from any store whose image ids are consistent with the
AUTOINCREMENT counter and which satisfies the at-most-one-primary invariant,
any sequence of image-upload and set-primary operations preserves the
invariant: every listing has at most one image with `is_primary = true` at
every point (each intermediate point being `runMediaOps` of a prefix). -/
theorem C2_at_most_one_primary (st : Store) (ops : List MediaOp)
    (hids : imgIdsOk st) (hprim : atMostOnePrimary st) :
    atMostOnePrimary (runMediaOps st ops) := by
  induction ops generalizing st with
  | nil => exact hprim
  | cons op rest ih =>
    exact ih (applyMediaOp st op) (mediaOp_preserves st op ⟨hids, hprim⟩).1
      (mediaOp_preserves st op ⟨hids, hprim⟩).2

/-- An upload followed by a set-primary on the uploaded image. -/
def opsC2 : List MediaOp := [MediaOp.upload 1 [fileC10], MediaOp.setPrim 1 1]

/-- Witness for C2: after uploading an image to listing 1 and flagging it
primary, listing 1 has at most one primary image. -/
theorem C2_witness : primCount (runMediaOps stC4 opsC2).images 1 ≤ 1 :=
  C2_at_most_one_primary stC4 opsC2
    ⟨fun r hr => absurd hr (List.not_mem_nil r), List.nodup_nil⟩
    (fun _ => Nat.zero_le _) 1
